import Mathlib

/-!
Shallow embedding of the halfshell image-processing core.

Sources embedded:
  - the image processor (ProcessImage, cropWand, scaleWand, blurWand,
    grayscaleWand, getScaledDimensions, scaleToRequestedDimensions,
    clampDimensionsToMaxima, getAspectScaledHeight, getAspectScaledWidth);
  - the route option resolver (SourceAndProcessorOptionsForRequest and the
    pathOrFormValue lookup it builds).

Modelling conventions:
  - Go uint64 pixel dimensions are Nat (no arithmetic in the source can
    overflow 64 bits on realistic inputs, and the only subtraction performed
    is guarded to be non-negative);
  - Go float64 arithmetic (aspect ratios, blur radii, crop anchors) is
    embedded as exact rational arithmetic over Rat;
  - Go math.Floor followed by an integer conversion becomes Int.floor;
  - the external ImageMagick wand is opaque: each stage is embedded as the
    pure computation of the parameters the source passes to the wand,
    together with the modified flag the source returns; the bytes an actual
    re-encode would produce enter ProcessImage as an explicit argument.
-/

namespace Halfshell

/-- Modelled from the spec: the ImageDimensions value type of the repository
(declared in a file not present here) is a pair of unsigned pixel sizes. -/
structure ImageDimensions where
  width : Nat
  height : Nat
deriving DecidableEq, Repr

/-- Modelled from the spec: the derived attribute aspectRatio = width / height
of ImageDimensions (the method is declared in a file not present here).
Rat division by zero yields 0, standing in for the undefined ratio the spec
warns about when height = 0. -/
def ImageDimensions.AspectRatio (d : ImageDimensions) : ℚ :=
  (d.width : ℚ) / (d.height : ℚ)

/-- The processor configuration fields read by the embedded source
(the struct declaration itself lives in a file not present here; the field
set and types are those the source reads). -/
structure ProcessorConfig where
  MaintainAspectRatio : Bool
  DefaultImageWidth : Nat
  DefaultImageHeight : Nat
  MaxImageWidth : Nat
  MaxImageHeight : Nat
  MaxBlurRadiusPercentage : ℚ
  GrayscaleByDefault : Bool
  GrayscaleDisabled : Bool
  ImageCompressionQuality : Nat
deriving Repr

/-- Crop anchor of the processing request, fields X and Y. -/
structure ImageProcessorCropOption where
  X : ℚ
  Y : ℚ
deriving Repr

/-- The processing request: requested dimensions, blur fraction, grayscale
flag and optional crop anchor. -/
structure ImageProcessorOptions where
  Dimensions : ImageDimensions
  BlurRadius : ℚ
  GrayScale : Bool
  Crop : Option ImageProcessorCropOption

/-- An image payload; only the byte payload is modelled (the mime type is
produced by the external wand). Bytes are abstracted as a list of naturals. -/
structure Image where
  Bytes : List Nat

/-- Go uint64(math.Floor(q + 0.5)): round-half-up to a natural number. -/
def roundHalfUp (q : ℚ) : Nat :=
  (Int.floor (q + 1/2)).toNat

/-- Go int(math.Floor(0.5 + q)): round-half-up to a (possibly negative)
integer, used for crop offsets. -/
def floorHalfUp (q : ℚ) : Int :=
  Int.floor (1/2 + q)

/-- getAspectScaledHeight from the source: round(width / aspectRatio). -/
def getAspectScaledHeight (aspectRatio : ℚ) (width : Nat) : Nat :=
  roundHalfUp ((width : ℚ) / aspectRatio)

/-- getAspectScaledWidth from the source: round(height * aspectRatio). -/
def getAspectScaledWidth (aspectRatio : ℚ) (height : Nat) : Nat :=
  roundHalfUp ((height : ℚ) * aspectRatio)

theorem roundHalfUp_le {q : ℚ} {n : Nat} (h : q ≤ (n : ℚ)) : roundHalfUp q ≤ n := by
  have hlt : q + 1/2 < ((n : Int) : ℚ) + 1 := by push_cast; linarith
  have hfl : Int.floor (q + 1/2) ≤ (n : Int) := by
    have := Int.floor_lt.mpr (by exact_mod_cast hlt : q + 1/2 < (((n : Int) + 1 : Int) : ℚ))
    omega
  rw [roundHalfUp]
  omega

theorem floorHalfUp_le {q : ℚ} {n : Nat} (h : q ≤ (n : ℚ)) : floorHalfUp q ≤ (n : Int) := by
  have hlt : 1/2 + q < ((n : Int) : ℚ) + 1 := by push_cast; linarith
  have := Int.floor_lt.mpr (by exact_mod_cast hlt : 1/2 + q < (((n : Int) + 1 : Int) : ℚ))
  rw [floorHalfUp]
  omega

theorem roundHalfUp_eq {q : ℚ} {n : Nat} (h1 : (n : ℚ) ≤ q + 1/2) (h2 : q + 1/2 < (n : ℚ) + 1) :
    roundHalfUp q = n := by
  have hfl : Int.floor (q + 1/2) = (n : Int) := by
    rw [Int.floor_eq_iff]
    constructor
    · exact_mod_cast h1
    · exact_mod_cast h2
  rw [roundHalfUp, hfl]
  omega

theorem getAspectScaledHeight_le (d : ImageDimensions) (m : Nat) (hm : m ≤ d.width) :
    getAspectScaledHeight d.AspectRatio m ≤ d.height := by
  apply roundHalfUp_le
  rw [ImageDimensions.AspectRatio]
  rcases Nat.eq_zero_or_pos d.height with h0 | hpos
  · simp [h0]
  rcases Nat.eq_zero_or_pos d.width with w0 | wpos
  · have hm0 : m = 0 := by omega
    simp [hm0]
  · have hw : (0 : ℚ) < (d.width : ℚ) := by exact_mod_cast wpos
    have hh : (0 : ℚ) < (d.height : ℚ) := by exact_mod_cast hpos
    have hmq : (m : ℚ) ≤ (d.width : ℚ) := by exact_mod_cast hm
    rw [div_div_eq_mul_div, div_le_iff₀ hw]
    nlinarith

theorem getAspectScaledWidth_le (d : ImageDimensions) (m : Nat) (hm : m ≤ d.height) :
    getAspectScaledWidth d.AspectRatio m ≤ d.width := by
  apply roundHalfUp_le
  rw [ImageDimensions.AspectRatio]
  rcases Nat.eq_zero_or_pos d.height with h0 | hpos
  · simp [h0]
  · have hh : (0 : ℚ) < (d.height : ℚ) := by exact_mod_cast hpos
    have hmq : (m : ℚ) ≤ (d.height : ℚ) := by exact_mod_cast hm
    have hne : (d.height : ℚ) ≠ 0 := ne_of_gt hh
    calc (m : ℚ) * ((d.width : ℚ) / (d.height : ℚ))
        ≤ (d.height : ℚ) * ((d.width : ℚ) / (d.height : ℚ)) := by
          apply mul_le_mul_of_nonneg_right hmq
          positivity
      _ = (d.width : ℚ) := by field_simp

/-- scaleToRequestedDimensions from the source: if both requested dimensions
are nonzero, either return them unchanged (aspect ratio not maintained, or
ratios equal) or recurse with the non-binding dimension cleared; with one
dimension nonzero derive the other from the current aspect ratio; with both
zero return the current dimensions. -/
def scaleToRequestedDimensions (cfg : ProcessorConfig)
    (currentDimensions requestedDimensions : ImageDimensions) : ImageDimensions :=
  if hwh : 0 < requestedDimensions.width ∧ 0 < requestedDimensions.height then
    if !cfg.MaintainAspectRatio then
      requestedDimensions
    else if requestedDimensions.AspectRatio > currentDimensions.AspectRatio then
      scaleToRequestedDimensions cfg currentDimensions ⟨0, requestedDimensions.height⟩
    else if requestedDimensions.AspectRatio < currentDimensions.AspectRatio then
      scaleToRequestedDimensions cfg currentDimensions ⟨requestedDimensions.width, 0⟩
    else
      requestedDimensions
  else if 0 < requestedDimensions.width then
    ⟨requestedDimensions.width,
     getAspectScaledHeight currentDimensions.AspectRatio requestedDimensions.width⟩
  else if 0 < requestedDimensions.height then
    ⟨getAspectScaledWidth currentDimensions.AspectRatio requestedDimensions.height,
     requestedDimensions.height⟩
  else
    currentDimensions
termination_by
  (if 0 < requestedDimensions.width then 1 else 0) +
  (if 0 < requestedDimensions.height then 1 else 0)
decreasing_by
  · simp [hwh.1, hwh.2]
  · simp [hwh.1, hwh.2]

/-- clampDimensionsToMaxima from the source: recursively shrink the result to
the configured maxima, rederiving the other dimension from the aspect ratio
of the already-resolved size. -/
def clampDimensionsToMaxima (cfg : ProcessorConfig)
    (dimensions : ImageDimensions) : ImageDimensions :=
  if h1 : 0 < cfg.MaxImageWidth ∧ cfg.MaxImageWidth < dimensions.width then
    clampDimensionsToMaxima cfg
      ⟨cfg.MaxImageWidth, getAspectScaledHeight dimensions.AspectRatio cfg.MaxImageWidth⟩
  else if h2 : 0 < cfg.MaxImageHeight ∧ cfg.MaxImageHeight < dimensions.height then
    clampDimensionsToMaxima cfg
      ⟨getAspectScaledWidth dimensions.AspectRatio cfg.MaxImageHeight, cfg.MaxImageHeight⟩
  else
    dimensions
termination_by dimensions.width + dimensions.height
decreasing_by
  · have := getAspectScaledHeight_le dimensions cfg.MaxImageWidth (Nat.le_of_lt h1.2)
    simp only [ImageDimensions.width, ImageDimensions.height] at *
    omega
  · have := getAspectScaledWidth_le dimensions cfg.MaxImageHeight (Nat.le_of_lt h2.2)
    simp only [ImageDimensions.width, ImageDimensions.height] at *
    omega

/-- getScaledDimensions from the source: substitute configured defaults when
both requested dimensions are zero, scale to the requested dimensions, then
clamp to the configured maxima. -/
def getScaledDimensions (cfg : ProcessorConfig) (currentDimensions : ImageDimensions)
    (request : ImageProcessorOptions) : ImageDimensions :=
  let requestDimensions :=
    if request.Dimensions.width = 0 ∧ request.Dimensions.height = 0 then
      ImageDimensions.mk cfg.DefaultImageWidth cfg.DefaultImageHeight
    else
      request.Dimensions
  clampDimensionsToMaxima cfg (scaleToRequestedDimensions cfg currentDimensions requestDimensions)

/-- The crop rectangle the source hands to the external CropImage primitive:
a size (unsigned in the source) and signed offsets. -/
structure CropRect where
  cropWidth : Nat
  cropHeight : Nat
  cropLeft : Int
  cropTop : Int
deriving DecidableEq, Repr

/-- cropWand from the source, restricted to the pure computation of the crop
rectangle passed to the external CropImage call: none when no crop option is
present (the stage reports unmodified), otherwise the rectangle. When the
image is wider than the requested aspect the width is cropped and the crop
frame shifted by the X anchor; otherwise the height is cropped and the frame
shifted by the Y anchor. -/
def cropWand (currentDimensions : ImageDimensions)
    (request : ImageProcessorOptions) : Option CropRect :=
  match request.Crop with
  | none => none
  | some crop =>
    if currentDimensions.AspectRatio > request.Dimensions.AspectRatio then
      let cropWidth :=
        getAspectScaledWidth request.Dimensions.AspectRatio currentDimensions.height
      some ⟨cropWidth, currentDimensions.height,
            floorHalfUp (((currentDimensions.width - cropWidth : Nat) : ℚ) * crop.X), 0⟩
    else
      let cropHeight :=
        getAspectScaledHeight request.Dimensions.AspectRatio currentDimensions.width
      some ⟨currentDimensions.width, cropHeight, 0,
            floorHalfUp (((currentDimensions.height - cropHeight : Nat) : ℚ) * crop.Y)⟩

/-- The modified flag returned by scaleWand in the source: the stage returns
early with modified = false exactly when the resolved dimensions equal the
current ones; otherwise it resizes and reports modified = true. -/
def scaleWandModified (cfg : ProcessorConfig) (currentDimensions : ImageDimensions)
    (request : ImageProcessorOptions) : Bool :=
  decide (getScaledDimensions cfg currentDimensions request ≠ currentDimensions)

/-- blurWand from the source, restricted to the pure computation of the radius
passed (for both axes) to the external GaussianBlurImage call: none when the
request's blur fraction is zero (the stage reports unmodified), otherwise
currentImageWidth * blurFraction * MaxBlurRadiusPercentage. -/
def blurWand (cfg : ProcessorConfig) (currentImageWidth : Nat)
    (request : ImageProcessorOptions) : Option ℚ :=
  if request.BlurRadius ≠ 0 then
    some ((currentImageWidth : ℚ) * request.BlurRadius * cfg.MaxBlurRadiusPercentage)
  else
    none

/-- grayscaleWand from the source, restricted to its guard: the stage converts
the colorspace (and reports modified = true) exactly when grayscale is not
disabled and is either forced by configuration or requested. -/
def grayscaleWand (cfg : ProcessorConfig) (request : ImageProcessorOptions) : Bool :=
  !cfg.GrayscaleDisabled && (cfg.GrayscaleByDefault || request.GrayScale)

/-- ProcessImage from the source, restricted to the byte-payload decision on
the success path: each stage's modified flag is recomputed from the pure stage
embeddings above, and the output bytes are the input bytes when no stage
modified the image, else the bytes re-encoded by the external wand (passed in
as encodedBlob, since encoding is external). currentDimensions are the decoded
input image's dimensions as the wand reports them. -/
def ProcessImage (cfg : ProcessorConfig) (currentDimensions : ImageDimensions)
    (encodedBlob : List Nat) (image : Image) (request : ImageProcessorOptions) : Image :=
  let cropModified := (cropWand currentDimensions request).isSome
  let scaleModified := scaleWandModified cfg currentDimensions request
  let blurModified := (blurWand cfg currentDimensions.width request).isSome
  let grayscaleModified := grayscaleWand cfg request
  if !cropModified && !scaleModified && !blurModified && !grayscaleModified then
    { Bytes := image.Bytes }
  else
    { Bytes := encodedBlob }

/-- The source options produced by the route resolver. -/
structure ImageSourceOptions where
  Path : String

/-- Decimal digit value of a character, none for a non-digit. -/
def digitVal (c : Char) : Option Nat :=
  if '0' ≤ c ∧ c ≤ '9' then some (c.toNat - Char.toNat '0') else none

/-- Accumulate a base-10 natural from characters; none on any non-digit. -/
def parseDigitsAux : List Char → Nat → Option Nat
  | [], acc => some acc
  | c :: cs, acc =>
    match digitVal c with
    | some d => parseDigitsAux cs (10 * acc + d)
    | none => none

/-- A nonempty all-digit parse; none for the empty list or any non-digit. -/
def parseNatPart (cs : List Char) : Option Nat :=
  if cs = [] then none else parseDigitsAux cs 0

/-- Model of Go strconv.ParseUint(s, 10, 32) with the error discarded, as the
caller discards it: 0 on a syntax error (empty string or non-digit), the
value on success, and the saturated maximum on 32-bit range overflow. -/
def ParseUint32 (s : String) : Nat :=
  match parseNatPart s.data with
  | none => 0
  | some n => if n < 2 ^ 32 then n else 2 ^ 32 - 1

/-- Model of Go strconv.ParseFloat(s, 64) with the error discarded, restricted
to plain decimal forms digits or digits.digits (the only shapes the blur
query parameter uses); any other input parses to 0, matching the discarded
error. Exact rational arithmetic stands in for float64. -/
def ParseFloat (s : String) : ℚ :=
  let intPart := s.data.takeWhile (fun c => c != '.')
  match s.data.dropWhile (fun c => c != '.') with
  | [] =>
    match parseNatPart s.data with
    | some n => (n : ℚ)
    | none => 0
  | _ :: frac =>
    match parseNatPart intPart, parseNatPart frac with
    | some i, some f => (i : ℚ) + (f : ℚ) / (10 : ℚ) ^ frac.length
    | _, _ => 0

/-- Model of Go strconv.ParseBool with the error discarded, as the caller
discards it: the six accepted true spellings yield true, everything else
(including the six false spellings and the empty string) yields false. -/
def ParseBool (s : String) : Bool :=
  s == "1" || s == "t" || s == "T" || s == "true" || s == "TRUE" || s == "True"

/-- The pathOrFormValue closure from the source resolver: look the key up
among the pattern's named captures first, then fall back to the request's
form values (Go FormValue returns the empty string when absent, so the form
mapping is total with default empty string). -/
def pathOrFormValue (pathArgs : String → Option String)
    (form : String → String) (key : String) : String :=
  match pathArgs key with
  | some val => val
  | none => form key

/-- SourceAndProcessorOptionsForRequest from the source: build the source path
from the image_path capture and the processor options from the w, h, blur and
grayscale fields via pathOrFormValue. The regex match is abstracted as the
pathArgs mapping (the NamedSubexpMap result); the Crop field is never set and
stays at its zero value, nil. -/
def SourceAndProcessorOptionsForRequest (pathArgs : String → Option String)
    (form : String → String) : ImageSourceOptions × ImageProcessorOptions :=
  ({ Path := (pathArgs "image_path").getD "" },
   { Dimensions := ⟨ParseUint32 (pathOrFormValue pathArgs form "w"),
                    ParseUint32 (pathOrFormValue pathArgs form "h")⟩
     BlurRadius := ParseFloat (pathOrFormValue pathArgs form "blur")
     GrayScale := ParseBool (pathOrFormValue pathArgs form "grayscale")
     Crop := none })

/-- Fixture: a processor configuration with every feature off and no maxima,
defaults or blur ceiling. -/
def cfgZero : ProcessorConfig :=
  { MaintainAspectRatio := false
    DefaultImageWidth := 0
    DefaultImageHeight := 0
    MaxImageWidth := 0
    MaxImageHeight := 0
    MaxBlurRadiusPercentage := 0
    GrayscaleByDefault := false
    GrayscaleDisabled := false
    ImageCompressionQuality := 0 }

/-- Fixture: the configuration of the end-to-end example, maxImageWidth 1000
with maintain-aspect-ratio enabled and no other settings. -/
def cfgC2 : ProcessorConfig :=
  { MaintainAspectRatio := true
    DefaultImageWidth := 0
    DefaultImageHeight := 0
    MaxImageWidth := 1000
    MaxImageHeight := 0
    MaxBlurRadiusPercentage := 0
    GrayscaleByDefault := false
    GrayscaleDisabled := false
    ImageCompressionQuality := 0 }

/-- Fixture: the configuration of the blur example, maxBlurRadiusPercentage
one half. -/
def cfgC7 : ProcessorConfig :=
  { MaintainAspectRatio := false
    DefaultImageWidth := 0
    DefaultImageHeight := 0
    MaxImageWidth := 0
    MaxImageHeight := 0
    MaxBlurRadiusPercentage := 1/2
    GrayscaleByDefault := false
    GrayscaleDisabled := false
    ImageCompressionQuality := 0 }

/-- Fixture: a request with no parameters set at all. -/
def reqEmpty : ImageProcessorOptions :=
  { Dimensions := ⟨0, 0⟩, BlurRadius := 0, GrayScale := false, Crop := none }

/-- Fixture: the end-to-end example request, width 1500 only. -/
def reqC2 : ImageProcessorOptions :=
  { Dimensions := ⟨1500, 0⟩, BlurRadius := 0, GrayScale := false, Crop := none }

/-- Fixture: a square target with a centered crop anchor. -/
def reqC4 : ImageProcessorOptions :=
  { Dimensions := ⟨1, 1⟩, BlurRadius := 0, GrayScale := false, Crop := some ⟨1/2, 1/2⟩ }

/-- Fixture: the blur example request, blur fraction one tenth. -/
def reqC7 : ImageProcessorOptions :=
  { Dimensions := ⟨0, 0⟩, BlurRadius := 1/10, GrayScale := false, Crop := none }

/-- Fixture: a route pattern match binding the w field to 100 from the path. -/
def pathArgsC5 : String → Option String :=
  fun key => if key = "w" then some "100" else none

/-- Fixture: a query string carrying w=50, competing with the path capture. -/
def formC5 : String → String :=
  fun key => if key = "w" then "50" else ""

/-- Every exit of clampDimensionsToMaxima is the base case, so its result
violates neither maximum: each configured nonzero maximum bounds the
corresponding dimension of the result. -/
theorem clampDimensionsToMaxima_no_overflow (cfg : ProcessorConfig) (d : ImageDimensions) :
    ¬(0 < cfg.MaxImageWidth ∧ cfg.MaxImageWidth < (clampDimensionsToMaxima cfg d).width) ∧
    ¬(0 < cfg.MaxImageHeight ∧ cfg.MaxImageHeight < (clampDimensionsToMaxima cfg d).height) := by
  induction d using clampDimensionsToMaxima.induct cfg with
  | case1 d h1 ih =>
    rw [clampDimensionsToMaxima, dif_pos h1]
    exact ih
  | case2 d h1 h2 ih =>
    rw [clampDimensionsToMaxima, dif_neg h1, dif_pos h2]
    exact ih
  | case3 d h1 h2 =>
    rw [clampDimensionsToMaxima, dif_neg h1, dif_neg h2]
    exact ⟨h1, h2⟩

/-- Claim C1: with maintain-aspect-ratio enabled, nonzero current dimensions
and both requested dimensions nonzero, scaleToRequestedDimensions compares
the requested aspect ratio with the current image's: strictly wider recurses
with the requested width cleared to zero and so derives the result from the
height; strictly narrower recurses with the height cleared and derives the
result from the width; equal ratios return the requested size unchanged. -/
theorem C1_scale_ratio_comparison (cfg : ProcessorConfig) (cur req : ImageDimensions)
    (hm : cfg.MaintainAspectRatio = true)
    (hcw : 0 < cur.width) (hch : 0 < cur.height)
    (hrw : 0 < req.width) (hrh : 0 < req.height) :
    (req.AspectRatio > cur.AspectRatio →
      scaleToRequestedDimensions cfg cur req =
        scaleToRequestedDimensions cfg cur ⟨0, req.height⟩ ∧
      scaleToRequestedDimensions cfg cur req =
        ⟨getAspectScaledWidth cur.AspectRatio req.height, req.height⟩) ∧
    (req.AspectRatio < cur.AspectRatio →
      scaleToRequestedDimensions cfg cur req =
        scaleToRequestedDimensions cfg cur ⟨req.width, 0⟩ ∧
      scaleToRequestedDimensions cfg cur req =
        ⟨req.width, getAspectScaledHeight cur.AspectRatio req.width⟩) ∧
    (req.AspectRatio = cur.AspectRatio → scaleToRequestedDimensions cfg cur req = req) := by
  refine ⟨fun hgt => ⟨?_, ?_⟩, fun hlt => ⟨?_, ?_⟩, fun heq => ?_⟩
  · rw [scaleToRequestedDimensions]
    simp [hrw, hrh, hm, hgt]
  · rw [scaleToRequestedDimensions]
    simp [hrw, hrh, hm, hgt]
    rw [scaleToRequestedDimensions]
    simp [hrh]
  · rw [scaleToRequestedDimensions]
    simp [hrw, hrh, hm, hlt, not_lt_of_gt hlt]
  · rw [scaleToRequestedDimensions]
    simp [hrw, hrh, hm, hlt, not_lt_of_gt hlt]
    rw [scaleToRequestedDimensions]
    simp [hrw]
  · rw [scaleToRequestedDimensions]
    simp [hrw, hrh, hm, heq]

/-- Claim C1 witness: current image 2 by 1, requested 1 by 1; the requested
ratio is strictly narrower, so the result is the recursion with height
cleared, namely the width-derived size. -/
theorem C1_scale_ratio_comparison_witness :
    ImageDimensions.AspectRatio ⟨1, 1⟩ < ImageDimensions.AspectRatio ⟨2, 1⟩ ∧
    scaleToRequestedDimensions cfgC2 ⟨2, 1⟩ ⟨1, 1⟩ =
      scaleToRequestedDimensions cfgC2 ⟨2, 1⟩ ⟨1, 0⟩ ∧
    scaleToRequestedDimensions cfgC2 ⟨2, 1⟩ ⟨1, 1⟩ =
      ⟨1, getAspectScaledHeight (ImageDimensions.AspectRatio ⟨2, 1⟩) 1⟩ := by
  have hlt : ImageDimensions.AspectRatio (⟨1, 1⟩ : ImageDimensions) <
      ImageDimensions.AspectRatio ⟨2, 1⟩ := by
    norm_num [ImageDimensions.AspectRatio]
  have h := C1_scale_ratio_comparison cfgC2 ⟨2, 1⟩ ⟨1, 1⟩ rfl
    (by norm_num) (by norm_num) (by norm_num) (by norm_num)
  exact ⟨hlt, (h.2.1 hlt).1, (h.2.1 hlt).2⟩

/-- Claim C2: with maxImageWidth 1000 and maintain-aspect-ratio on, a 2000 by
1000 image requested at width 1500 resolves to 1500 by 750 before the clamp,
the clamp yields 1000 by 500, and getScaledDimensions returns 1000 by 500. -/
theorem C2_end_to_end :
    scaleToRequestedDimensions cfgC2 ⟨2000, 1000⟩ ⟨1500, 0⟩ = ⟨1500, 750⟩ ∧
    clampDimensionsToMaxima cfgC2 ⟨1500, 750⟩ = ⟨1000, 500⟩ ∧
    getScaledDimensions cfgC2 ⟨2000, 1000⟩ reqC2 = ⟨1000, 500⟩ := by
  have h750 : roundHalfUp 750 = 750 := roundHalfUp_eq (by norm_num) (by norm_num)
  have h500 : roundHalfUp 500 = 500 := roundHalfUp_eq (by norm_num) (by norm_num)
  have hs : scaleToRequestedDimensions cfgC2 ⟨2000, 1000⟩ ⟨1500, 0⟩ = ⟨1500, 750⟩ := by
    rw [scaleToRequestedDimensions]
    norm_num [ImageDimensions.AspectRatio, getAspectScaledHeight, h750]
  have hc : clampDimensionsToMaxima cfgC2 ⟨1500, 750⟩ = ⟨1000, 500⟩ := by
    rw [clampDimensionsToMaxima]
    norm_num [cfgC2, ImageDimensions.AspectRatio, getAspectScaledHeight, h500]
    rw [clampDimensionsToMaxima]
    norm_num [cfgC2]
  refine ⟨hs, hc, ?_⟩
  rw [getScaledDimensions]
  norm_num [reqC2, hs, hc]

/-- Claim C3: clamping to the configured maxima is idempotent; a second
application of clampDimensionsToMaxima with the same maxima is the identity
on outputs of the first. -/
theorem C3_clamp_idempotent (cfg : ProcessorConfig) (d : ImageDimensions) :
    clampDimensionsToMaxima cfg (clampDimensionsToMaxima cfg d) =
      clampDimensionsToMaxima cfg d := by
  have h := clampDimensionsToMaxima_no_overflow cfg d
  conv_lhs => rw [clampDimensionsToMaxima]
  rw [dif_neg h.1, dif_neg h.2]

theorem floorHalfUp_eq {q : ℚ} {n : Int} (h1 : (n : ℚ) ≤ 1/2 + q) (h2 : 1/2 + q < (n : ℚ) + 1) :
    floorHalfUp q = n := by
  rw [floorHalfUp, Int.floor_eq_iff]
  exact ⟨by exact_mod_cast h1, by exact_mod_cast h2⟩

/-- Claim C4: for nonzero current dimensions, a target aspect ratio from
nonzero requested dimensions and an anchor in the unit square, the crop
rectangle computed by cropWand stays inside the source image, and the
non-cropped dimension is kept at full size with offset zero. -/
theorem C4_crop_in_bounds (cur : ImageDimensions) (request : ImageProcessorOptions)
    (c : ImageProcessorCropOption)
    (hcw : 0 < cur.width) (hch : 0 < cur.height)
    (hrw : 0 < request.Dimensions.width) (hrh : 0 < request.Dimensions.height)
    (hc : request.Crop = some c)
    (hx0 : 0 ≤ c.X) (hx1 : c.X ≤ 1) (hy0 : 0 ≤ c.Y) (hy1 : c.Y ≤ 1) :
    ∀ rect, cropWand cur request = some rect →
      rect.cropLeft + (rect.cropWidth : Int) ≤ (cur.width : Int) ∧
      rect.cropTop + (rect.cropHeight : Int) ≤ (cur.height : Int) ∧
      ((rect.cropHeight = cur.height ∧ rect.cropTop = 0) ∨
       (rect.cropWidth = cur.width ∧ rect.cropLeft = 0)) := by
  intro rect hrect
  rw [cropWand, hc] at hrect
  dsimp only [] at hrect
  have hhq : (0 : ℚ) < (cur.height : ℚ) := by exact_mod_cast hch
  by_cases hAR : cur.AspectRatio > request.Dimensions.AspectRatio
  · rw [if_pos hAR] at hrect
    obtain rfl := Option.some_inj.mp hrect
    have hcwle : getAspectScaledWidth request.Dimensions.AspectRatio cur.height ≤ cur.width := by
      rw [getAspectScaledWidth]
      apply roundHalfUp_le
      rw [ImageDimensions.AspectRatio] at hAR
      have hmul : request.Dimensions.AspectRatio * (cur.height : ℚ) < (cur.width : ℚ) :=
        (lt_div_iff₀ hhq).mp hAR
      linarith [hmul, mul_comm (request.Dimensions.AspectRatio) ((cur.height : ℚ))]
    have hoff : floorHalfUp
        (((cur.width - getAspectScaledWidth request.Dimensions.AspectRatio cur.height : Nat) : ℚ)
          * c.X) ≤
        ((cur.width - getAspectScaledWidth request.Dimensions.AspectRatio cur.height : Nat) : Int) := by
      apply floorHalfUp_le
      apply mul_le_of_le_one_right _ hx1
      positivity
    refine ⟨?_, ?_, Or.inl ⟨rfl, rfl⟩⟩
    · simp only [CropRect.cropLeft, CropRect.cropWidth]
      omega
    · simp only [CropRect.cropTop, CropRect.cropHeight]
      omega
  · rw [if_neg hAR] at hrect
    obtain rfl := Option.some_inj.mp hrect
    have hreqpos : 0 < request.Dimensions.AspectRatio := by
      rw [ImageDimensions.AspectRatio]
      have h1 : (0 : ℚ) < (request.Dimensions.width : ℚ) := by exact_mod_cast hrw
      have h2 : (0 : ℚ) < (request.Dimensions.height : ℚ) := by exact_mod_cast hrh
      positivity
    have hchle : getAspectScaledHeight request.Dimensions.AspectRatio cur.width ≤ cur.height := by
      rw [getAspectScaledHeight]
      apply roundHalfUp_le
      push_neg at hAR
      rw [ImageDimensions.AspectRatio] at hAR
      have hmul : (cur.width : ℚ) ≤ request.Dimensions.AspectRatio * (cur.height : ℚ) :=
        (div_le_iff₀ hhq).mp hAR
      rw [div_le_iff₀ hreqpos]
      linarith [hmul, mul_comm (request.Dimensions.AspectRatio) ((cur.height : ℚ))]
    have hoff : floorHalfUp
        (((cur.height - getAspectScaledHeight request.Dimensions.AspectRatio cur.width : Nat) : ℚ)
          * c.Y) ≤
        ((cur.height - getAspectScaledHeight request.Dimensions.AspectRatio cur.width : Nat) : Int) := by
      apply floorHalfUp_le
      apply mul_le_of_le_one_right _ hy1
      positivity
    refine ⟨?_, ?_, Or.inr ⟨rfl, rfl⟩⟩
    · simp only [CropRect.cropLeft, CropRect.cropWidth]
      omega
    · simp only [CropRect.cropTop, CropRect.cropHeight]
      omega

/-- Claim C4 witness: a 4 by 2 source cropped toward a square target with a
centered anchor yields the rectangle 2 by 2 at offset 1, 0, inside bounds. -/
theorem C4_crop_in_bounds_witness :
    cropWand ⟨4, 2⟩ reqC4 = some ⟨2, 2, 1, 0⟩ ∧
    (⟨2, 2, 1, 0⟩ : CropRect).cropLeft + ((⟨2, 2, 1, 0⟩ : CropRect).cropWidth : Int) ≤
      ((4 : Nat) : Int) ∧
    (⟨2, 2, 1, 0⟩ : CropRect).cropTop + ((⟨2, 2, 1, 0⟩ : CropRect).cropHeight : Int) ≤
      ((2 : Nat) : Int) := by
  have hr2 : roundHalfUp 2 = 2 := roundHalfUp_eq (by norm_num) (by norm_num)
  have hf1 : floorHalfUp 1 = 1 := floorHalfUp_eq (by norm_num) (by norm_num)
  have heq : cropWand ⟨4, 2⟩ reqC4 = some ⟨2, 2, 1, 0⟩ := by
    rw [cropWand]
    norm_num [reqC4, ImageDimensions.AspectRatio, getAspectScaledWidth, hr2, hf1]
  have h := C4_crop_in_bounds ⟨4, 2⟩ reqC4 ⟨1/2, 1/2⟩ (by norm_num) (by norm_num)
    (by norm_num [reqC4]) (by norm_num [reqC4]) rfl (by norm_num) (by norm_num)
    (by norm_num) (by norm_num) ⟨2, 2, 1, 0⟩ heq
  exact ⟨heq, h.1, h.2.1⟩

/-- Claim C5: each recognized field of the resolved processor options is
parsed from pathOrFormValue of its key, and pathOrFormValue prefers a named
path capture over the form value, falling back to the form value (empty, and
hence the zero value, when absent) only when no capture binds the key; in
particular a path capture binding w to 100 yields width 100 regardless of the
query string. -/
theorem C5_option_resolver_precedence (pathArgs : String → Option String)
    (form : String → String) :
    ((SourceAndProcessorOptionsForRequest pathArgs form).2.Dimensions =
        ⟨ParseUint32 (pathOrFormValue pathArgs form "w"),
         ParseUint32 (pathOrFormValue pathArgs form "h")⟩ ∧
     (SourceAndProcessorOptionsForRequest pathArgs form).2.BlurRadius =
        ParseFloat (pathOrFormValue pathArgs form "blur") ∧
     (SourceAndProcessorOptionsForRequest pathArgs form).2.GrayScale =
        ParseBool (pathOrFormValue pathArgs form "grayscale")) ∧
    (∀ key v, pathArgs key = some v → pathOrFormValue pathArgs form key = v) ∧
    (∀ key, pathArgs key = none → pathOrFormValue pathArgs form key = form key) ∧
    (ParseUint32 "" = 0 ∧ ParseFloat "" = 0 ∧ ParseBool "" = false) ∧
    (pathArgs "w" = some "100" →
      (SourceAndProcessorOptionsForRequest pathArgs form).2.Dimensions.width = 100) := by
  refine ⟨⟨rfl, rfl, rfl⟩, ?_, ?_, ⟨rfl, rfl, rfl⟩, ?_⟩
  · intro key v h
    rw [pathOrFormValue, h]
  · intro key h
    rw [pathOrFormValue, h]
  · intro h
    show ParseUint32 (pathOrFormValue pathArgs form "w") = 100
    rw [pathOrFormValue, h]
    rfl

/-- Claim C5 witness: with the path capturing w as 100 and the query string
saying w=50, the resolved width is 100. -/
theorem C5_option_resolver_precedence_witness :
    (SourceAndProcessorOptionsForRequest pathArgsC5 formC5).2.Dimensions.width = 100 ∧
    formC5 "w" = "50" := by
  have h := C5_option_resolver_precedence pathArgsC5 formC5
  exact ⟨h.2.2.2.2 rfl, rfl⟩

/-- Claim C6: when no stage mutates the image, crop option absent, resolved
target equal to the current size, zero blur and grayscale neither requested
nor forced, ProcessImage returns the input bytes verbatim, whatever bytes a
re-encode would have produced. -/
theorem C6_pipeline_passthrough (cfg : ProcessorConfig) (cur : ImageDimensions)
    (encodedBlob : List Nat) (image : Image) (request : ImageProcessorOptions)
    (h1 : request.Crop = none)
    (h2 : getScaledDimensions cfg cur request = cur)
    (h3 : request.BlurRadius = 0)
    (h4 : request.GrayScale = false)
    (h5 : cfg.GrayscaleByDefault = false) :
    (ProcessImage cfg cur encodedBlob image request).Bytes = image.Bytes := by
  rw [ProcessImage]
  simp [cropWand, h1, scaleWandModified, h2, blurWand, h3, grayscaleWand, h4, h5]

/-- Claim C6 witness: a 1 by 1 image with an empty request passes through
unchanged even though a different encoded blob was available. -/
theorem C6_pipeline_passthrough_witness :
    (ProcessImage cfgZero ⟨1, 1⟩ [9, 9] ⟨[1, 2, 3]⟩ reqEmpty).Bytes = [1, 2, 3] := by
  have hs : scaleToRequestedDimensions cfgZero ⟨1, 1⟩ ⟨0, 0⟩ = ⟨1, 1⟩ := by
    rw [scaleToRequestedDimensions]
    simp
  have h2 : getScaledDimensions cfgZero ⟨1, 1⟩ reqEmpty = ⟨1, 1⟩ := by
    have hdw : cfgZero.DefaultImageWidth = 0 := rfl
    have hdh : cfgZero.DefaultImageHeight = 0 := rfl
    have hmw : cfgZero.MaxImageWidth = 0 := rfl
    have hmh : cfgZero.MaxImageHeight = 0 := rfl
    rw [getScaledDimensions]
    simp only [reqEmpty, hdw, hdh]
    norm_num
    rw [hs, clampDimensionsToMaxima]
    norm_num [hmw, hmh]
  exact C6_pipeline_passthrough cfgZero ⟨1, 1⟩ [9, 9] ⟨[1, 2, 3]⟩ reqEmpty rfl h2 rfl rfl rfl

/-- Claim C7: the blur stage runs exactly when the request's blur fraction is
nonzero, and the radius it hands to the external Gaussian blur for both axes
is currentImageWidth * blurFraction * MaxBlurRadiusPercentage. -/
theorem C7_blur_guard_and_radius (cfg : ProcessorConfig) (currentImageWidth : Nat)
    (request : ImageProcessorOptions) :
    ((blurWand cfg currentImageWidth request).isSome ↔ request.BlurRadius ≠ 0) ∧
    (request.BlurRadius ≠ 0 →
      blurWand cfg currentImageWidth request =
        some ((currentImageWidth : ℚ) * request.BlurRadius * cfg.MaxBlurRadiusPercentage)) := by
  by_cases h : request.BlurRadius = 0
  · simp [blurWand, h]
  · simp [blurWand, h]

/-- Claim C7 witness: blur fraction one tenth, ceiling one half and width 800
give radius 40. -/
theorem C7_blur_guard_and_radius_witness :
    blurWand cfgC7 800 reqC7 = some 40 := by
  have h := (C7_blur_guard_and_radius cfgC7 800 reqC7).2 (by norm_num [reqC7])
  rw [h]
  norm_num [cfgC7, reqC7]

/-- Claim C8: the grayscale stage runs exactly when grayscale is not
administratively disabled and is either forced by configuration or requested. -/
theorem C8_grayscale_guard (cfg : ProcessorConfig) (request : ImageProcessorOptions) :
    grayscaleWand cfg request = true ↔
      cfg.GrayscaleDisabled = false ∧
      (cfg.GrayscaleByDefault = true ∨ request.GrayScale = true) := by
  simp [grayscaleWand, Bool.and_eq_true, Bool.not_eq_true', Bool.or_eq_true]

/-- Claim C9 counterexample: for a zero-height current image the dimension
engine does not treat the undefined aspect ratio as an error: it returns a
resolved size (the degenerate current size, when nothing is requested and no
defaults or maxima are set), and the scale stage then reports unmodified, so
the pipeline proceeds; no DimensionError is ever produced, the engine being a
total function with no error path. -/
theorem C9_counterexample :
    scaleToRequestedDimensions cfgZero ⟨100, 0⟩ ⟨0, 0⟩ = ⟨100, 0⟩ ∧
    getScaledDimensions cfgZero ⟨100, 0⟩ reqEmpty = ⟨100, 0⟩ ∧
    scaleWandModified cfgZero ⟨100, 0⟩ reqEmpty = false := by
  have hs : scaleToRequestedDimensions cfgZero ⟨100, 0⟩ ⟨0, 0⟩ = ⟨100, 0⟩ := by
    rw [scaleToRequestedDimensions]
    simp
  have hg : getScaledDimensions cfgZero ⟨100, 0⟩ reqEmpty = ⟨100, 0⟩ := by
    have hdw : cfgZero.DefaultImageWidth = 0 := rfl
    have hdh : cfgZero.DefaultImageHeight = 0 := rfl
    have hmw : cfgZero.MaxImageWidth = 0 := rfl
    have hmh : cfgZero.MaxImageHeight = 0 := rfl
    rw [getScaledDimensions]
    simp only [reqEmpty, hdw, hdh]
    norm_num
    rw [hs, clampDimensionsToMaxima]
    norm_num [hmw, hmh]
  refine ⟨hs, hg, ?_⟩
  simp [scaleWandModified, hg]

/-- Claim C9 as amended: the dimension engine performs no zero-height guard
and has no error path; with a zero-height current image, an empty request and
no configured defaults or maxima it returns the degenerate current size
unchanged and the scale stage reports unmodified. -/
theorem C9_zero_height_no_error (cfg : ProcessorConfig) (w : Nat)
    (request : ImageProcessorOptions)
    (hreq : request.Dimensions = ⟨0, 0⟩)
    (hdw : cfg.DefaultImageWidth = 0) (hdh : cfg.DefaultImageHeight = 0)
    (hmw : cfg.MaxImageWidth = 0) (hmh : cfg.MaxImageHeight = 0) :
    getScaledDimensions cfg ⟨w, 0⟩ request = ⟨w, 0⟩ ∧
    scaleWandModified cfg ⟨w, 0⟩ request = false := by
  have hs : scaleToRequestedDimensions cfg ⟨w, 0⟩ ⟨0, 0⟩ = ⟨w, 0⟩ := by
    rw [scaleToRequestedDimensions]
    simp
  have hg : getScaledDimensions cfg ⟨w, 0⟩ request = ⟨w, 0⟩ := by
    rw [getScaledDimensions]
    simp only [hreq]
    norm_num [hdw, hdh]
    rw [hs, clampDimensionsToMaxima]
    norm_num [hmw, hmh]
  refine ⟨hg, ?_⟩
  simp [scaleWandModified, hg]

/-- Claim C9 witness for the amended statement: the concrete 100 by 0 image. -/
theorem C9_zero_height_no_error_witness :
    getScaledDimensions cfgZero ⟨100, 0⟩ reqEmpty = ⟨100, 0⟩ ∧
    scaleWandModified cfgZero ⟨100, 0⟩ reqEmpty = false :=
  C9_zero_height_no_error cfgZero 100 reqEmpty rfl rfl rfl rfl rfl

/-- Claim C10: the option resolver never populates the crop field, so for any
request built through it the crop stage reports unmodified: the resolved Crop
is nil and cropWand returns none on such options for every current size. -/
theorem C10_resolver_never_sets_crop (pathArgs : String → Option String)
    (form : String → String) (cur : ImageDimensions) :
    (SourceAndProcessorOptionsForRequest pathArgs form).2.Crop = none ∧
    cropWand cur (SourceAndProcessorOptionsForRequest pathArgs form).2 = none :=
  ⟨rfl, rfl⟩

end Halfshell
